import Mathlib

/-!
Verification of the single-shot GPU job executor in `src/main.rs` (a vulkano
compute example: dispatch a compute shader into a 4096 x 4096 RGBA8 storage
image, copy the image into a host-visible buffer, wait on a fence, read the
buffer back and encode it as a PNG).

The development shallowly embeds the straight-line `main` function:

* queue-family selection and device-context creation (`position`,
  `createDeviceContext`) embed lines 39-64;
* the recorded command sequence (`recordedCommands`) embeds lines 164-186;
* the buffer initializer (`bufInit`) embeds line 147;
* the descriptor-set-layout lookup (`getSetLayout`) embeds lines 125-129;
* `mainRun` embeds the whole fallible control flow of `main` as a function of
  a `World` of step outcomes, recording the host/GPU synchronization events
  (host write at buffer creation, queue submission, fence-wait return, host
  readback) in program order.
-/

namespace VulkanJob

/-- Queue capability flags of a queue family (vulkano `QueueFlags`,
restricted to the capabilities the spec discusses). -/
structure QueueFlags where
  graphics : Bool
  compute : Bool
  transfer : Bool
  deriving DecidableEq

/-- A physical device as far as queue-family selection is concerned:
its list of queue-family capability flags (line 45-47). -/
structure PhysicalDevice where
  queueFamilies : List QueueFlags
  deriving DecidableEq

/-- Errors of device-context creation: `.context("no devices available")`
(line 43) and `.context("couldn't find a graphical queue family")` (line 52). -/
inductive DeviceError where
  | noDevicesAvailable
  | noGraphicalQueueFamily
  deriving DecidableEq

/-- Rust `Iterator::position`: index of the first element satisfying `p`
(line 49). -/
def position {α : Type} (p : α → Bool) : List α → Option Nat
  | [] => none
  | x :: rest => if p x then some 0 else (position p rest).map (fun n => n + 1)

/-- Embedding of lines 39-52: take the first enumerated physical device
(error `noDevicesAvailable` when the enumeration is empty), then select the
first queue family whose flags contain `QueueFlags::GRAPHICS` (error
`noGraphicalQueueFamily` when none matches).  Returns the chosen device and
queue-family index. -/
def createDeviceContext (devices : List PhysicalDevice) :
    Except DeviceError (PhysicalDevice × Nat) :=
  match devices with
  | [] => Except.error DeviceError.noDevicesAvailable
  | pd :: _ =>
    match position (fun f => f.graphics) pd.queueFamilies with
    | none => Except.error DeviceError.noGraphicalQueueFamily
    | some i => Except.ok (pd, i)

/-- Line 103: `let width = 4096`. -/
def width : Nat := 4096

/-- Line 104: `let height = 4096`. -/
def height : Nat := 4096

/-- Resource usage flags (union of the buffer and image usage bits the
program mentions). -/
structure Usage where
  storage : Bool
  transferSrc : Bool
  transferDst : Bool
  deriving DecidableEq

/-- Line 112: the image is created with `ImageUsage::STORAGE | ImageUsage::TRANSFER_SRC`. -/
def imageUsage : Usage := { storage := true, transferSrc := true, transferDst := false }

/-- Line 140: the readback buffer is created with `BufferUsage::TRANSFER_DST`. -/
def bufUsage : Usage := { storage := false, transferSrc := false, transferDst := true }

/-- The two resources of the job: the storage image (line 106) and the
readback buffer `buf` (line 137). -/
inductive Resource where
  | image
  | buf
  deriving DecidableEq

/-- Usage flags each resource was created with. -/
def usageOf : Resource → Usage
  | Resource.image => imageUsage
  | Resource.buf => bufUsage

/-- Ways an operation can reference a resource. -/
inductive Access where
  | storageImage
  | copySource
  | copyDest
  deriving DecidableEq

/-- Does a usage-flag set cover an access?  A storage-image access needs the
storage bit, a copy source needs transfer-src, a copy destination needs
transfer-dst. -/
def Usage.supports : Usage → Access → Bool
  | u, Access.storageImage => u.storage
  | u, Access.copySource => u.transferSrc
  | u, Access.copyDest => u.transferDst

/-- Commands recorded into the command buffer (lines 164-186). -/
inductive Command where
  | bindPipelineCompute
  | bindDescriptorSets
  | dispatch (groups : Nat × Nat × Nat)
  | copyImageToBuffer (src : Resource) (dst : Resource)
  deriving DecidableEq

/-- Resources a command references, and how.  The dispatch writes the storage
image through the descriptor set bound at line 167-172 (binding 0 holds the
image view of `image`); the copy reads `image` and writes `buf` (lines 182-185). -/
def Command.references : Command → List (Resource × Access)
  | Command.bindPipelineCompute => []
  | Command.bindDescriptorSets => []
  | Command.dispatch _ => [(Resource.image, Access.storageImage)]
  | Command.copyImageToBuffer s d => [(s, Access.copySource), (d, Access.copyDest)]

def Command.isDispatch : Command → Bool
  | Command.dispatch _ => true
  | _ => false

def Command.isCopyImageToBuffer : Command → Bool
  | Command.copyImageToBuffer _ _ => true
  | _ => false

/-- Line 177: the work-group counts passed to `dispatch`,
`[width / 8, height / 8, 1]`. -/
def workGroupCounts : Nat × Nat × Nat := (width / 8, height / 8, 1)

/-- The command sequence recorded into the command buffer, in recording
order (lines 164-186): bind the compute pipeline, bind the descriptor set,
dispatch, copy the image into the buffer.  The single in-order queue executes
a command buffer in recording order. -/
def recordedCommands : List Command :=
  [Command.bindPipelineCompute,
   Command.bindDescriptorSets,
   Command.dispatch workGroupCounts,
   Command.copyImageToBuffer Resource.image Resource.buf]

/-- All accesses the recorded commands make to resource `r`, in order. -/
def accessesOf (r : Resource) : List Access :=
  ((recordedCommands.map Command.references).flatten).filterMap
    (fun ra => if ra.1 = r then some ra.2 else none)

/-- Ceiling division on naturals. -/
def ceilDiv (a b : Nat) : Nat := (a + b - 1) / b

/-- Modelled from the spec: the compute shader's declared local workgroup
size.  The shader source `src/shaders/compute.comp` is not part of the
provided sources; the spec fixes the local group size the dispatch is
computed against as 8 x 8 x 1. -/
def localGroupSize : Nat × Nat × Nat := (8, 8, 1)

/-- Line 111: the image extent `[width, height, 1]`. -/
def imageExtent : Nat × Nat × Nat := (width, height, 1)

/-- Line 147: the buffer's initial content iterator
`(0..width * height * 4).map(|_| 0u8)` — one `u8` element per index. -/
def bufInit : List Nat := (List.range (width * height * 4)).map (fun _ => 0)

/-- Size in bytes of one buffer element (`u8`). -/
def u8Size : Nat := 1

/-- Embedding of lines 125-129:
`compute_pipeline.layout().set_layouts().get(0).context("failed to return a layout")?`.
The pipeline layout's descriptor-set layouts are modelled as a list; `get(0)`
yields `None` exactly when the pipeline declares zero sets, and `.context(..)?`
converts that `None` into an error that propagates out of `main`. -/
def getSetLayout (setLayouts : List Nat) (i : Nat) : Except String Nat :=
  match setLayouts.get? i with
  | some l => Except.ok l
  | none => Except.error "failed to return a layout"

/-- Modelled from the spec: `ImageBuffer::<Rgba<u8>, _>::from_raw` of the
external `image` crate (line 202) succeeds exactly when the supplied
container holds at least the `width * height * 4` bytes an RGBA8 image of
the given dimensions requires. -/
def fromRawRgba8 (w h : Nat) (data : List Nat) : Option (List Nat) :=
  if w * h * 4 ≤ data.length then some data else none

/-- Lines 201-203: build the host-side image from the readback bytes, with
error string `"failed to construct an ImageBuffer"` when `from_raw` fails. -/
def imageConstruction (data : List Nat) : Except String (List Nat) :=
  match fromRawRgba8 width height data with
  | some img => Except.ok img
  | none => Except.error "failed to construct an ImageBuffer"

/-- Command-buffer usage modes (vulkano `CommandBufferUsage`). -/
inductive CmdBufUsage where
  | oneTimeSubmit
  | multipleSubmit
  | simultaneousUse
  deriving DecidableEq

/-- Line 160: the builder is created with `CommandBufferUsage::OneTimeSubmit`. -/
def commandBufferUsage : CmdBufUsage := CmdBufUsage.oneTimeSubmit

/-- Host/GPU interaction events of one run, in program order:
`hostWriteBuf` — the host fills the buffer's initial contents
(`Buffer::from_iter`, line 137-149); `submit` — the command buffer is
submitted to the queue (`then_signal_fence_and_flush` succeeding, line 195);
`waitOk` — `future.wait(None)` returns `Ok` (line 198); `hostReadBuf` — the
host maps the buffer (`buf.read()`, line 200). -/
inductive Event where
  | hostWriteBuf
  | submit
  | waitOk
  | hostReadBuf
  deriving DecidableEq

/-- Is the event a host access to a job resource? -/
def Event.isHostAccess : Event → Bool
  | Event.hostWriteBuf => true
  | Event.hostReadBuf => true
  | _ => false

def exceptIsOk {ε α : Type} : Except ε α → Bool
  | Except.ok _ => true
  | Except.error _ => false

instance exceptDecEq {ε α : Type} [DecidableEq ε] [DecidableEq α] :
    DecidableEq (Except ε α) := fun x y =>
  match x, y with
  | Except.error a, Except.error b =>
    if h : a = b then isTrue (by rw [h])
    else isFalse (by intro hc; cases hc; exact h rfl)
  | Except.error _, Except.ok _ => isFalse (by intro hc; cases hc)
  | Except.ok _, Except.error _ => isFalse (by intro hc; cases hc)
  | Except.ok a, Except.ok b =>
    if h : a = b then isTrue (by rw [h])
    else isFalse (by intro hc; cases hc; exact h rfl)

/-- Outcomes of the environment-dependent steps of `main`: one flag per
fallible call, in source order, plus the enumerated device list and the
number of descriptor-set layouts of the built pipeline layout. -/
structure World where
  libraryOk : Bool
  instanceOk : Bool
  enumerateOk : Bool
  devices : List PhysicalDevice
  deviceOk : Bool
  shaderOk : Bool
  entryOk : Bool
  layoutInfoOk : Bool
  pipelineLayoutOk : Bool
  computePipelineOk : Bool
  imageOk : Bool
  viewOk : Bool
  setLayoutCount : Nat
  descSetOk : Bool
  bufferOk : Bool
  builderOk : Bool
  bindPipeOk : Bool
  bindSetsOk : Bool
  dispatchOk : Bool
  copyOk : Bool
  buildOk : Bool
  execOk : Bool
  flushOk : Bool
  waitFenceOk : Bool
  readOk : Bool
  saveOk : Bool
  deriving DecidableEq

/-- Steps of `main` before the readback buffer is created (lines 29-135):
library, instance, enumeration, device-context creation (lines 39-52),
logical device, shader load, entry point, pipeline-layout info, pipeline
layout, compute pipeline, image, image view, descriptor-set-layout lookup
(lines 125-129) and descriptor set.  Each `?` aborts `main` on failure. -/
def preOk (w : World) : Bool :=
  w.libraryOk && w.instanceOk && w.enumerateOk &&
  exceptIsOk (createDeviceContext w.devices) &&
  w.deviceOk && w.shaderOk && w.entryOk && w.layoutInfoOk &&
  w.pipelineLayoutOk && w.computePipelineOk && w.imageOk && w.viewOk &&
  exceptIsOk (getSetLayout (List.range w.setLayoutCount) 0) && w.descSetOk

/-- Steps from the command-buffer builder through `then_execute`
(lines 151-194): builder creation, the four recording calls, `build`, and
`then_execute`. -/
def recordOk (w : World) : Bool :=
  w.builderOk && w.bindPipeOk && w.bindSetsOk && w.dispatchOk &&
  w.copyOk && w.buildOk && w.execOk

/-- Embedding of the control flow of `main` (lines 29-209).  The result is
the list of host/GPU events that happened, in program order, and whether the
run reached `Ok(())`.  The host writes the buffer when `Buffer::from_iter`
succeeds (line 147); the command buffer is submitted when
`then_signal_fence_and_flush` succeeds (line 195); `waitOk` fires when
`future.wait(None)` returns `Ok` (line 198); only then is `buf.read()`
reached (line 200).  Every failing `?` aborts the run with the events
accumulated so far. -/
def mainRun (w : World) : List Event × Bool :=
  if preOk w then
    if w.bufferOk then
      if recordOk w then
        if w.flushOk then
          if w.waitFenceOk then
            ([Event.hostWriteBuf, Event.submit, Event.waitOk, Event.hostReadBuf],
             w.readOk && w.saveOk)
          else ([Event.hostWriteBuf, Event.submit], false)
        else ([Event.hostWriteBuf], false)
      else ([Event.hostWriteBuf], false)
    else ([], false)
  else ([], false)

/-- A world where every step succeeds: one device with one
graphics-and-compute queue family, a pipeline layout with one set layout. -/
def allOk : World where
  libraryOk := true
  instanceOk := true
  enumerateOk := true
  devices := [⟨[⟨true, true, true⟩]⟩]
  deviceOk := true
  shaderOk := true
  entryOk := true
  layoutInfoOk := true
  pipelineLayoutOk := true
  computePipelineOk := true
  imageOk := true
  viewOk := true
  setLayoutCount := 1
  descSetOk := true
  bufferOk := true
  builderOk := true
  bindPipeOk := true
  bindSetsOk := true
  dispatchOk := true
  copyOk := true
  buildOk := true
  execOk := true
  flushOk := true
  waitFenceOk := true
  readOk := true
  saveOk := true

/-! ## Helper lemmas about `position` -/

/-- Rust `position` finds nothing exactly when no element satisfies the
predicate. -/
theorem position_eq_none_iff {α : Type} (p : α → Bool) (l : List α) :
    position p l = none ↔ ∀ x ∈ l, p x = false := by
  induction l with
  | nil => simp [position]
  | cons x rest ih =>
    by_cases hx : p x = true
    · simp [position, hx]
    · simp only [Bool.not_eq_true] at hx
      simp [position, hx, ih]

/-- When Rust `position` returns index `i`, the element at `i` satisfies the
predicate. -/
theorem position_eq_some_get {α : Type} (p : α → Bool) :
    ∀ (l : List α) (i : Nat), position p l = some i →
      ∃ x, l.get? i = some x ∧ p x = true := by
  intro l
  induction l with
  | nil => intro i h; simp [position] at h
  | cons x rest ih =>
    intro i h
    by_cases hx : p x = true
    · simp [position, hx] at h
      subst h
      exact ⟨x, rfl, hx⟩
    · simp only [Bool.not_eq_true] at hx
      simp only [position, hx, Bool.false_eq_true, if_false,
        Option.map_eq_some'] at h
      obtain ⟨j, hj, hi⟩ := h
      subst hi
      obtain ⟨y, hy, hpy⟩ := ih j hj
      exact ⟨y, by simpa using hy, hpy⟩

/-- Every run's event trace is a prefix of the full trace: nothing, host
write only, host write then submission, or the full successful sequence. -/
theorem mainRun_trace_cases (w : World) :
    (mainRun w).1 = [] ∨
    (mainRun w).1 = [Event.hostWriteBuf] ∨
    (mainRun w).1 = [Event.hostWriteBuf, Event.submit] ∨
    (mainRun w).1 =
      [Event.hostWriteBuf, Event.submit, Event.waitOk, Event.hostReadBuf] := by
  unfold mainRun
  split_ifs <;> simp

/-- In every successful run the event trace is exactly: host write of the
buffer's initial contents, submission, fence wait returning, host readback. -/
theorem mainRun_success_trace (w : World) (h : (mainRun w).2 = true) :
    (mainRun w).1 =
      [Event.hostWriteBuf, Event.submit, Event.waitOk, Event.hostReadBuf] := by
  unfold mainRun at h ⊢
  split_ifs at h ⊢ <;> simp_all

/-! ## Claims -/

/-- C1: in every successful run, the host readback (`buf.read()`) occurs
strictly after the fence wait has returned `Ok`, which occurs strictly after
the submission, and no host access to the image or buffer happens between
the submission and the wait's return. -/
theorem C1_host_read_after_wait (w : World) (h : (mainRun w).2 = true) :
    ∃ i j k : Nat,
      (mainRun w).1.get? i = some Event.submit ∧
      (mainRun w).1.get? j = some Event.waitOk ∧
      (mainRun w).1.get? k = some Event.hostReadBuf ∧
      i < j ∧ j < k ∧
      (∀ m : Nat, i < m → m < j → ∀ e : Event,
        (mainRun w).1.get? m = some e → e.isHostAccess = false) := by
  have ht := mainRun_success_trace w h
  refine ⟨1, 2, 3, ?_, ?_, ?_, by omega, by omega, ?_⟩
  · rw [ht]; rfl
  · rw [ht]; rfl
  · rw [ht]; rfl
  · intro m h1 h2 e _
    omega

/-- C1 witness: the fully successful world satisfies the hypothesis and the
conclusion. -/
theorem C1_host_read_after_wait_witness :
    (mainRun allOk).2 = true ∧
    ∃ i j k : Nat,
      (mainRun allOk).1.get? i = some Event.submit ∧
      (mainRun allOk).1.get? j = some Event.waitOk ∧
      (mainRun allOk).1.get? k = some Event.hostReadBuf ∧
      i < j ∧ j < k ∧
      (∀ m : Nat, i < m → m < j → ∀ e : Event,
        (mainRun allOk).1.get? m = some e → e.isHostAccess = false) :=
  ⟨by decide, C1_host_read_after_wait allOk (by decide)⟩

/-- C2 counterexample: the program happily creates a device context from a
device whose only queue family has GRAPHICS but not COMPUTE capability — the
selection predicate (line 50) checks `QueueFlags::GRAPHICS` only, so the
selected family (index 0 here) need not include compute capability. -/
theorem C2_counterexample :
    createDeviceContext [⟨[⟨true, false, false⟩]⟩] =
      Except.ok (⟨[⟨true, false, false⟩]⟩, 0) ∧
    (QueueFlags.mk true false false).compute = false := by decide

/-- C2 (amended): for every device context the program creates, the selected
queue family's capability flags include GRAPHICS; compute capability is not
checked by the selection. -/
theorem C2_graphics_selected (devices : List PhysicalDevice)
    (pd : PhysicalDevice) (i : Nat)
    (h : createDeviceContext devices = Except.ok (pd, i)) :
    ∃ f, pd.queueFamilies.get? i = some f ∧ f.graphics = true := by
  cases devices with
  | nil => simp [createDeviceContext] at h
  | cons d rest =>
    cases hp : position (fun f => f.graphics) d.queueFamilies with
    | none => simp [createDeviceContext, hp] at h
    | some j =>
      simp only [createDeviceContext, hp, Except.ok.injEq, Prod.mk.injEq] at h
      obtain ⟨rfl, rfl⟩ := h
      obtain ⟨x, hx, hpx⟩ := position_eq_some_get _ _ _ hp
      exact ⟨x, hx, by simpa using hpx⟩

/-- A physical device with a single graphics-only queue family. -/
def gfxOnlyDevice : PhysicalDevice := ⟨[⟨true, false, false⟩]⟩

/-- C2 witness: instantiating the amended claim at a concrete device list. -/
theorem C2_graphics_selected_witness :
    ∃ f, gfxOnlyDevice.queueFamilies.get? 0 = some f ∧ f.graphics = true :=
  C2_graphics_selected [gfxOnlyDevice] gfxOnlyDevice 0 (by decide)

/-- C3: the Dispatch that writes the storage image is recorded strictly
before the CopyImageToBuffer that reads the same image (indices 2 and 3 of
the recorded sequence), and the two commands reference the image as a
storage image and as the copy source respectively. -/
theorem C3_dispatch_before_copy :
    recordedCommands.findIdx Command.isDispatch = 2 ∧
    recordedCommands.findIdx Command.isCopyImageToBuffer = 3 ∧
    recordedCommands.findIdx Command.isDispatch <
      recordedCommands.findIdx Command.isCopyImageToBuffer ∧
    recordedCommands.get? 2 = some (Command.dispatch workGroupCounts) ∧
    recordedCommands.get? 3 =
      some (Command.copyImageToBuffer Resource.image Resource.buf) ∧
    (Command.dispatch workGroupCounts).references =
      [(Resource.image, Access.storageImage)] ∧
    (Command.copyImageToBuffer Resource.image Resource.buf).references =
      [(Resource.image, Access.copySource), (Resource.buf, Access.copyDest)] := by
  decide

/-- C4: the readback buffer's byte length is `element_count * element_size`,
which for this job is `width * height * 4` elements of one byte each, i.e.
4096 * 4096 * 4 bytes. -/
theorem C4_buffer_byte_length :
    bufInit.length * u8Size = width * height * 4 ∧
    width * height * 4 = 4096 * 4096 * 4 := by
  constructor
  · have h : bufInit.length = width * height * 4 := by
      unfold bufInit
      rw [List.length_map, List.length_range]
    rw [h, show u8Size = 1 from rfl]
    exact Nat.mul_one _
  · rfl

/-- C5: the work-group counts passed to the recorded Dispatch,
`[width / 8, height / 8, 1]`, equal `ceil(extent / local_group_size)` in
every dimension, namely `[512, 512, 1]`, and that Dispatch is the one in the
recorded sequence. -/
theorem C5_work_group_counts :
    workGroupCounts =
      (ceilDiv imageExtent.1 localGroupSize.1,
       ceilDiv imageExtent.2.1 localGroupSize.2.1,
       ceilDiv imageExtent.2.2 localGroupSize.2.2) ∧
    workGroupCounts = (512, 512, 1) ∧
    recordedCommands.get? 2 = some (Command.dispatch workGroupCounts) := by
  decide

/-- C6: device-context creation takes the first enumerated physical device;
it fails with `noDevicesAvailable` exactly when the enumeration is empty,
and when a device is found but no queue family has the required capability
flags it fails with `noGraphicalQueueFamily` instead of proceeding. -/
theorem C6_device_selection (devices : List PhysicalDevice) :
    (createDeviceContext devices = Except.error DeviceError.noDevicesAvailable ↔
      devices = []) ∧
    (∀ pd rest, devices = pd :: rest →
      (∀ res i, createDeviceContext devices = Except.ok (res, i) → res = pd) ∧
      ((∀ f ∈ pd.queueFamilies, f.graphics = false) →
        createDeviceContext devices =
          Except.error DeviceError.noGraphicalQueueFamily)) := by
  cases devices with
  | nil =>
    refine ⟨by simp [createDeviceContext], ?_⟩
    intro pd rest h
    cases h
  | cons d rest =>
    constructor
    · constructor
      · intro h
        cases hp : position (fun f => f.graphics) d.queueFamilies with
        | none => simp [createDeviceContext, hp] at h
        | some j => simp [createDeviceContext, hp] at h
      · intro h
        cases h
    · intro pd rest2 heq
      injection heq with h1 h2
      subst h1
      constructor
      · intro res i h
        cases hp : position (fun f => f.graphics) d.queueFamilies with
        | none => simp [createDeviceContext, hp] at h
        | some j =>
          simp only [createDeviceContext, hp, Except.ok.injEq,
            Prod.mk.injEq] at h
          exact h.1.symm
      · intro hall
        have hp : position (fun f => f.graphics) d.queueFamilies = none := by
          rw [position_eq_none_iff]
          exact hall
        simp [createDeviceContext, hp]

/-- C6 witness: the empty enumeration yields `noDevicesAvailable`; a device
whose only family is compute-and-transfer (no graphics bit) yields
`noGraphicalQueueFamily`. -/
theorem C6_device_selection_witness :
    createDeviceContext [] = Except.error DeviceError.noDevicesAvailable ∧
    createDeviceContext [⟨[⟨false, true, true⟩]⟩] =
      Except.error DeviceError.noGraphicalQueueFamily :=
  ⟨(C6_device_selection []).1.mpr rfl,
   ((C6_device_selection [⟨[⟨false, true, true⟩]⟩]).2 ⟨[⟨false, true, true⟩]⟩
      [] rfl).2 (by decide)⟩

/-- C7: every reference a recorded command makes to a resource is covered by
that resource's usage flags, the image is referenced only as a dispatch
storage image and as a copy source, and the buffer only as a copy
destination. -/
theorem C7_usage_superset :
    (recordedCommands.all fun c =>
      c.references.all fun ra => (usageOf ra.1).supports ra.2) = true ∧
    accessesOf Resource.image = [Access.storageImage, Access.copySource] ∧
    accessesOf Resource.buf = [Access.copyDest] := by
  decide

/-- A world where everything succeeds up to and including `then_execute`,
but `then_signal_fence_and_flush` (the actual queue submission) fails. -/
def flushFail : World := { allOk with flushOk := false }

/-- C8 counterexample: in the run where the command buffer is fully recorded
and built but `then_signal_fence_and_flush` fails, the command buffer is
submitted zero times, not exactly once — so "in every run it is submitted
exactly once" is false as stated. -/
theorem C8_counterexample :
    (mainRun flushFail).1.count Event.submit = 0 ∧
    ¬ (mainRun flushFail).1.count Event.submit = 1 := by decide

/-- C8 (amended): the command buffer is created with one-time-submit usage;
in every run it is submitted at most once (never replayed), and in every
successful run exactly once. -/
theorem C8_one_time_submit :
    commandBufferUsage = CmdBufUsage.oneTimeSubmit ∧
    ∀ w : World, (mainRun w).1.count Event.submit ≤ 1 ∧
      ((mainRun w).2 = true → (mainRun w).1.count Event.submit = 1) := by
  refine ⟨rfl, ?_⟩
  intro w
  constructor
  · rcases mainRun_trace_cases w with h | h | h | h <;> rw [h] <;> decide
  · intro h
    rw [mainRun_success_trace w h]
    rfl

/-- C8 witness: in the fully successful world the submission count is one. -/
theorem C8_one_time_submit_witness :
    (mainRun allOk).2 = true ∧ (mainRun allOk).1.count Event.submit = 1 :=
  ⟨by decide, (C8_one_time_submit.2 allOk).2 (by decide)⟩

/-- C9 counterexample: when the pipeline layout declares zero descriptor
sets, the `get(0)` lookup does surface an error — `.context("failed to
return a layout")?` converts the `None` into an error that aborts `main`
before descriptor-set construction — contradicting the claim that no error
is surfaced. -/
theorem C9_counterexample :
    exceptIsOk (getSetLayout [] 0) = false ∧
    getSetLayout [] 0 = Except.error "failed to return a layout" :=
  ⟨rfl, rfl⟩

/-- C9 (amended): when the pipeline layout declares zero descriptor sets,
the lookup at index 0 surfaces the error "failed to return a layout" before
descriptor-set construction. -/
theorem C9_zero_sets_error (setLayouts : List Nat)
    (h : setLayouts.length = 0) :
    getSetLayout setLayouts 0 = Except.error "failed to return a layout" := by
  cases setLayouts with
  | nil => rfl
  | cons a l => simp at h

/-- C9 witness: the empty set-layout list. -/
theorem C9_zero_sets_error_witness :
    ([] : List Nat).length = 0 ∧
    getSetLayout [] 0 = Except.error "failed to return a layout" :=
  ⟨rfl, C9_zero_sets_error [] rfl⟩

/-- C10: the readback buffer holds exactly `width * height * 4` bytes, and
constructing the host-side RGBA8 image from any byte slice of that length
always succeeds — the "failed to construct an ImageBuffer" branch is
unreachable on a successfully read buffer. -/
theorem C10_from_raw_total :
    bufInit.length = width * height * 4 ∧
    ∀ data : List Nat, data.length = bufInit.length →
      imageConstruction data = Except.ok data := by
  have hl : bufInit.length = width * height * 4 := by
    unfold bufInit
    rw [List.length_map, List.length_range]
  refine ⟨hl, ?_⟩
  intro data hd
  rw [hl] at hd
  simp [imageConstruction, fromRawRgba8, hd]

/-- C10 witness: the buffer's initial contents themselves. -/
theorem C10_from_raw_total_witness :
    bufInit.length = bufInit.length ∧
    imageConstruction bufInit = Except.ok bufInit :=
  ⟨rfl, C10_from_raw_total.2 bufInit rfl⟩

end VulkanJob
